import Mathlib

/-
Verification of the CDN gateway core of `main.py`: entry-file resolution
(`resolve_entry_file`), the request classifier in `handle_request`, and the
handlers `get_package_entry` / `get_package_file`, shallowly embedded over
Lean strings and association lists.
-/

/-- JSON values of the string-and-object fragment used by the registry data
model: a Python `str` or a `dict` with string keys (association list, first
binding authoritative). -/
inductive PyVal where
  | vstr (s : String)
  | vdict (entries : List (String × PyVal))

/-- Python `s.lstrip("./")`: remove ALL leading characters that are `.` or
`/` (character-set semantics, not prefix removal). -/
def pyLstrip (s : String) : String :=
  String.mk (s.toList.dropWhile (fun c => c == '.' || c == '/'))

/-- Python `sub in s` for strings: substring containment (empty substring is
always contained). -/
def strContainsSub (s sub : String) : Bool :=
  if sub.isEmpty then true else (s.splitOn sub).length ≥ 2

/-- The registry base URL configured at the top of `main.py`. -/
def NPM_REGISTRY : String := "https://registry.npmjs.org"

/-- The jsDelivr CDN base URL configured at the top of `main.py`. -/
def JSDELIVR_CDN : String := "https://cdn.jsdelivr.net/npm"

/-- The unpkg CDN base URL configured at the top of `main.py`. -/
def UNPKG_CDN : String := "https://unpkg.com"

/-- An outward HTTP response: status code, body text, and the headers the
code sets explicitly (Content-Type and CORS for file responses). -/
structure HttpResponse where
  status : Nat
  content : String
  headers : List (String × String)
deriving DecidableEq, Repr

/-- Outcome of one CDN GET as observed by `get_package_file`: either the
request raised (timeout, transport failure) or a response arrived with a
status, a body, and an optional `content-type` header. -/
inductive CdnResult where
  | exn
  | resp (status : Nat) (content : String) (contentType : Option String)
deriving DecidableEq, Repr

/-- Outcome of the registry GET as observed by `get_package_entry`: either
`client.get` raised, or a response arrived with a status and a body whose
`.json()` either parses to a `PyVal` or raises with a message. -/
inductive RegistryResult where
  | exn (msg : String)
  | resp (status : Nat) (body : Except String PyVal)

/-- Step 3 of `resolve_entry_file` (lines 44-49 of `main.py`): fall back to
the `main` field; `.lstrip` on a non-string raises (modelled as `.error`). -/
def mainFallback (package_json : List (String × PyVal)) : Except Unit (Option String) :=
  match package_json.lookup "main" with
  | some (PyVal.vstr entry) => Except.ok (some (pyLstrip entry))
  | some (PyVal.vdict _) => Except.error ()
  | none => Except.ok none

/-- `resolve_entry_file` of `main.py` (lines 14-49): priority
`jsdelivr` > `exports["."]["default"]` > `exports["."]` string > `main`,
each candidate passed through Python `lstrip("./")`; `None` when nothing
matches. `Except.error` models an exception escaping the function (attribute
or indexing errors on values of unexpected type); for a non-dict argument the
Python `in` operator degrades to a substring test and any hit leads to a
string-indexing `TypeError`. -/
def resolve_entry_file (package_json : PyVal) : Except Unit (Option String) :=
  match package_json with
  | PyVal.vstr s =>
    if strContainsSub s "jsdelivr" then Except.error ()
    else if strContainsSub s "exports" then Except.error ()
    else if strContainsSub s "main" then Except.error ()
    else Except.ok none
  | PyVal.vdict pj =>
    match pj.lookup "jsdelivr" with
    | some (PyVal.vstr entry) => Except.ok (some (pyLstrip entry))
    | some (PyVal.vdict _) => Except.error ()
    | none =>
      match pj.lookup "exports" with
      | some (PyVal.vdict ed) =>
        (match ed.lookup "." with
         | some (PyVal.vdict dot_export) =>
           (match dot_export.lookup "default" with
            | some (PyVal.vstr entry) => Except.ok (some (pyLstrip entry))
            | some (PyVal.vdict _) => Except.error ()
            | none => mainFallback pj)
         | some (PyVal.vstr s) => Except.ok (some (pyLstrip s))
         | none => mainFallback pj)
      | some (PyVal.vstr _) => mainFallback pj
      | none => mainFallback pj

/-- The jsDelivr candidate URL built by `get_package_file` (line 247). -/
def jsdelivr_url (package_name version file_path : String) : String :=
  JSDELIVR_CDN ++ "/" ++ package_name ++ "@" ++ version ++ "/" ++ file_path

/-- The unpkg candidate URL built by `get_package_file` (line 248). -/
def unpkg_url (package_name version file_path : String) : String :=
  UNPKG_CDN ++ "/" ++ package_name ++ "@" ++ version ++ "/" ++ file_path

/-- The ordered CDN candidate list of `get_package_file` (lines 246-249):
jsDelivr first, then unpkg. -/
def cdn_urls (package_name version file_path : String) : List String :=
  [jsdelivr_url package_name version file_path,
   unpkg_url package_name version file_path]

/-- The `for cdn_url in cdn_urls` loop of `get_package_file` (lines
258-280): first 200 wins and carries body, `content-type` (default
`text/plain`) and an open CORS header; any exception or non-200 is swallowed
and the walk proceeds; exhaustion yields 404. Also returns the list of URLs
actually requested, in order. -/
def fetchWalk (cdn : String → CdnResult) : List String → HttpResponse × List String
  | [] => ({ status := 404, content := "404 File Not Found", headers := [] }, [])
  | url :: rest =>
    match cdn url with
    | CdnResult.resp s content ct =>
      if s == 200 then
        ({ status := 200, content := content,
           headers := [("Content-Type", ct.getD "text/plain"),
                       ("Access-Control-Allow-Origin", "*")] }, [url])
      else
        let r := fetchWalk cdn rest
        (r.1, url :: r.2)
    | CdnResult.exn =>
      let r := fetchWalk cdn rest
      (r.1, url :: r.2)

/-- `get_package_file` of `main.py` (lines 244-280): walk the two CDN
candidates in order. `cdn` is the environment giving each URL's outcome. -/
def get_package_file (cdn : String → CdnResult) (package_name version file_path : String) :
    HttpResponse × List String :=
  fetchWalk cdn (cdn_urls package_name version file_path)

/-- Whether a CDN outcome is an HTTP 200 response. -/
def is200 : CdnResult → Bool
  | CdnResult.resp s _ _ => s == 200
  | CdnResult.exn => false

/-- The `except` branch of `get_package_entry`: a 500 response exposing the
exception text (line 186-190 of `main.py`). -/
def err500 (msg : String) : HttpResponse :=
  { status := 500, content := "Error: " ++ msg, headers := [] }

/-- Python truthiness for the `version` variable of `get_package_entry`
(`None`, the empty string and the empty dict are falsy). -/
def pyTruthy : Option PyVal → Bool
  | none => false
  | some (PyVal.vstr s) => !(s == "")
  | some (PyVal.vdict d) => !d.isEmpty

/-- `get_package_entry` of `main.py` (lines 145-190): fetch the manifest,
short-circuit on registry 404, substitute `dist-tags.latest` for a falsy
version, require the version to be a key of `versions`, resolve the entry
file and delegate to `get_package_file`; any exception yields a 500. Returns
the response together with the list of CDN URLs requested (empty when no CDN
call was made). -/
def get_package_entry (reg : RegistryResult) (cdn : String → CdnResult)
    (package_name : String) (version : Option String) : HttpResponse × List String :=
  match reg with
  | RegistryResult.exn e => (err500 e, [])
  | RegistryResult.resp status body =>
    if status == 404 then
      ({ status := 404, content := "404 Package Not Found", headers := [] }, [])
    else
      match body with
      | Except.error e => (err500 e, [])
      | Except.ok (PyVal.vstr _) => (err500 "AttributeError: str object has no attribute get", [])
      | Except.ok (PyVal.vdict pd) =>
        match
          (if pyTruthy (version.map PyVal.vstr) then Except.ok (version.map PyVal.vstr)
           else
             match (pd.lookup "dist-tags").getD (PyVal.vdict []) with
             | PyVal.vdict dt => Except.ok (dt.lookup "latest")
             | PyVal.vstr _ => Except.error ()) with
        | Except.error _ => (err500 "AttributeError: str object has no attribute get", [])
        | Except.ok ver =>
          match (pd.lookup "versions").getD (PyVal.vdict []) with
          | PyVal.vstr s =>
            (match ver with
             | some (PyVal.vstr v) =>
               if strContainsSub s v then
                 (err500 "TypeError: string indices must be integers", [])
               else
                 ({ status := 404, content := "404 Version " ++ v ++ " Not Found",
                    headers := [] }, [])
             | _ => (err500 "TypeError: in requires string as left operand", []))
          | PyVal.vdict vs =>
            match ver with
            | none =>
              ({ status := 404, content := "404 Version None Not Found", headers := [] }, [])
            | some (PyVal.vdict _) => (err500 "TypeError: unhashable type", [])
            | some (PyVal.vstr v) =>
              match vs.lookup v with
              | none =>
                ({ status := 404, content := "404 Version " ++ v ++ " Not Found",
                   headers := [] }, [])
              | some version_data =>
                match resolve_entry_file version_data with
                | Except.error _ => (err500 "AttributeError: object has no attribute lstrip", [])
                | Except.ok none => ({ status := 404, content := "404 Not Found", headers := [] }, [])
                | Except.ok (some entry_file) => get_package_file cdn package_name v entry_file

/-- Membership test of a character in a path, Python `c in s`. -/
def containsChar (c : Char) : List Char → Bool
  | [] => false
  | x :: xs => x == c || containsChar c xs

/-- Python `s.endswith("/")` on a path. -/
def endsWithSlash (l : List Char) : Bool :=
  match l.reverse with
  | [] => false
  | c :: _ => c == '/'

/-- Python `s.rstrip("/")`: remove all trailing `/` characters. -/
def pyRstrip (d : Char) (l : List Char) : List Char :=
  (l.reverse.dropWhile (fun c => c == d)).reverse

/-- Python `s.split(c, 1)`: the part before the first occurrence of `c`,
and (when `c` occurs) the part after it. `split(c, 1)[0]` is the first
component; `split(c, 1)[1]` exists exactly when the second component is
`some`. -/
def pySplit1 (c : Char) : List Char → List Char × Option (List Char)
  | [] => ([], none)
  | x :: xs =>
    if x == c then ([], some xs)
    else
      let r := pySplit1 c xs
      (x :: r.1, r.2)

/-- The six-way tagged union produced by the request classifier embedded in
`handle_request` (spec section 4.3): the five URL shapes plus the terminal
`unmatched` fall-through of line 142. -/
inductive RequestShape where
  | packageEntry (package_name : List Char)
  | packageDirLatest (package_name : List Char)
  | packageEntryVersioned (package_name version : List Char)
  | packageDirVersioned (package_name version : List Char)
  | packageFileVersioned (package_name version file_path : List Char)
  | unmatched
deriving DecidableEq, Repr

/-- Guard of case 3 of `handle_request` (line 117): the path contains `@`
and no `/` occurs after the first `@` (short-circuit: false when `@` is
absent). -/
def noSlashAfterAt (full_path : List Char) : Bool :=
  match (pySplit1 '@' full_path).2 with
  | some rest => !(containsChar '/' rest)
  | none => false

/-- Cases 5 and the terminal 404 of `handle_request` (lines 131-142),
reached by falling through cases 1-4. -/
def classifyTail (full_path : List Char) : RequestShape :=
  if containsChar '@' full_path then
    match (pySplit1 '@' full_path).2 with
    | some rest =>
      if containsChar '/' rest then
        let vp := pySplit1 '/' rest
        RequestShape.packageFileVersioned (pySplit1 '@' full_path).1 vp.1 (vp.2.getD [])
      else RequestShape.unmatched
    | none => RequestShape.unmatched
  else RequestShape.unmatched

/-- The classifier chain of `handle_request` (lines 77-142), as the pure
parse `classify(path) -> RequestShape` of spec section 4.3: case 1 bare
package, case 2 trailing-slash package, case 3 `pkg@version`, case 4
`pkg@version/`, case 5 `pkg@version/file`, then the terminal 404. -/
def classify (full_path : List Char) : RequestShape :=
  if !containsChar '@' full_path && !endsWithSlash full_path then
    RequestShape.packageEntry full_path
  else if !containsChar '@' full_path && endsWithSlash full_path then
    RequestShape.packageDirLatest (pyRstrip '/' full_path)
  else if containsChar '@' full_path && noSlashAfterAt full_path then
    RequestShape.packageEntryVersioned (pySplit1 '@' full_path).1
      ((pySplit1 '@' full_path).2.getD [])
  else if endsWithSlash full_path then
    match (pySplit1 '@' (pyRstrip '/' full_path)).2 with
    | some version =>
      RequestShape.packageDirVersioned (pySplit1 '@' (pyRstrip '/' full_path)).1 version
    | none => classifyTail full_path
  else classifyTail full_path

/-- The package-name component a shape dispatches with, when any. -/
def packageComponent : RequestShape → Option (List Char)
  | RequestShape.packageEntry p => some p
  | RequestShape.packageDirLatest p => some p
  | RequestShape.packageEntryVersioned p _ => some p
  | RequestShape.packageDirVersioned p _ => some p
  | RequestShape.packageFileVersioned p _ _ => some p
  | RequestShape.unmatched => none

/-- Whether a shape dispatches to one of the five handlers (i.e. is not the
terminal 404 fall-through). -/
def isDispatched : RequestShape → Bool
  | RequestShape.unmatched => false
  | _ => true

/-- Stripping as the spec's words describe it for the priority law: remove
only a single leading `./` or `/` prefix, nothing more. Stated from the
spec, for comparison with the code's `pyLstrip`. -/
def stripDotSlashOnce (s : String) : String :=
  match s.toList with
  | '.' :: '/' :: rest => String.mk rest
  | '/' :: rest => String.mk rest
  | _ => s

/-- Boolean membership agrees with list membership. -/
theorem containsChar_eq_true_iff {c : Char} : ∀ {l : List Char}, containsChar c l = true ↔ c ∈ l := by
  intro l
  induction l with
  | nil => simp [containsChar]
  | cons x xs ih =>
    simp only [containsChar, Bool.or_eq_true, beq_iff_eq, ih, List.mem_cons]
    constructor
    · rintro (rfl | h)
      · exact Or.inl rfl
      · exact Or.inr h
    · rintro (rfl | h)
      · exact Or.inl rfl
      · exact Or.inr h

/-- Splitting at a character that occurs in the list yields a second
component. -/
theorem pySplit1_isSome {c : Char} : ∀ {l : List Char}, containsChar c l = true → ((pySplit1 c l).2).isSome = true := by
  intro l
  induction l with
  | nil => simp [containsChar]
  | cons x xs ih =>
    intro h
    by_cases hx : (x == c) = true
    · simp [pySplit1, hx]
    · rw [Bool.not_eq_true] at hx
      simp only [containsChar, hx, Bool.false_or] at h
      simpa [pySplit1, hx] using ih h

/-- A character not matching the dropped predicate survives `dropWhile`. -/
theorem mem_dropWhile_of_mem {c d : Char} : ∀ {l : List Char}, c ∈ l → (c == d) = false → c ∈ l.dropWhile (fun x => x == d) := by
  intro l
  induction l with
  | nil => intro h; cases h
  | cons x xs ih =>
    intro h hcd
    by_cases hx : (x == d) = true
    · rcases List.mem_cons.mp h with rfl | hm
      · rw [hx] at hcd; cases hcd
      · simpa [List.dropWhile_cons, hx] using ih hm hcd
    · rw [Bool.not_eq_true] at hx
      simp [List.dropWhile_cons, hx, h]

/-- `rstrip("/")` cannot remove a character different from `/`. -/
theorem containsChar_pyRstrip {c d : Char} {l : List Char} (hcd : (c == d) = false)
    (h : containsChar c l = true) : containsChar c (pyRstrip d l) = true := by
  rw [containsChar_eq_true_iff] at h ⊢
  unfold pyRstrip
  rw [List.mem_reverse]
  exact mem_dropWhile_of_mem (List.mem_reverse.mpr h) hcd

/-- Splitting at the first `c` of `a ++ c :: b` when `a` is `c`-free gives
`(a, some b)`. -/
theorem pySplit1_append {c : Char} : ∀ (a b : List Char), containsChar c a = false → pySplit1 c (a ++ c :: b) = (a, some b) := by
  intro a
  induction a with
  | nil => intro b _; simp [pySplit1]
  | cons x xs ih =>
    intro b h
    simp only [containsChar, Bool.or_eq_false_iff] at h
    simp [pySplit1, h.1, ih b h.2]

/-- Claim C1, as stated, is false at a concrete input: with
`jsdelivr = "./.well-known/x.js"` and `main` present, `resolve_entry_file`
returns `"well-known/x.js"` (Python `lstrip("./")` removes every leading `.`
and `/` character), while removing only a leading `./` prefix would give
`".well-known/x.js"`; the two differ. -/
theorem claim_C1_counterexample :
    resolve_entry_file (PyVal.vdict
        [("jsdelivr", PyVal.vstr "./.well-known/x.js"), ("main", PyVal.vstr "index.js")]) =
      Except.ok (some "well-known/x.js") ∧
    stripDotSlashOnce "./.well-known/x.js" = ".well-known/x.js" ∧
    (("well-known/x.js" == ".well-known/x.js") = false) :=
  ⟨rfl, by decide, by decide⟩

/-- Claim C1 (amended): for every VersionManifest in which both `jsdelivr`
and `main` are present as strings, `resolve_entry_file` returns the
`jsdelivr` value with ALL leading `.` and `/` characters removed (Python
`lstrip("./")` character-set semantics), not just a single `./` prefix. -/
theorem claim_C1 (pj : List (String × PyVal)) (j m : String)
    (hj : pj.lookup "jsdelivr" = some (PyVal.vstr j))
    (_hm : pj.lookup "main" = some (PyVal.vstr m)) :
    resolve_entry_file (PyVal.vdict pj) = Except.ok (some (pyLstrip j)) := by
  simp [resolve_entry_file, hj]

/-- Witness for C1 at a concrete manifest. -/
theorem claim_C1_witness :
    resolve_entry_file (PyVal.vdict
        [("jsdelivr", PyVal.vstr "./dist/a.js"), ("main", PyVal.vstr "index.js")]) =
      Except.ok (some "dist/a.js") :=
  claim_C1 [("jsdelivr", PyVal.vstr "./dist/a.js"), ("main", PyVal.vstr "index.js")]
    "./dist/a.js" "index.js" rfl rfl

/-- Claim C5, as stated, is false at a concrete input: it quantifies over
every VersionManifest whose `exports["."]` is a mapping without `default`
and whose `main` is present, but when `jsdelivr` is also present the
resolver returns the `jsdelivr` value, not `main`. -/
theorem claim_C5_counterexample :
    resolve_entry_file (PyVal.vdict
        [("jsdelivr", PyVal.vstr "cdn.js"),
         ("exports", PyVal.vdict [(".", PyVal.vdict [])]),
         ("main", PyVal.vstr "index.js")]) =
      Except.ok (some "cdn.js") ∧
    (("cdn.js" == "index.js") = false) :=
  ⟨rfl, by decide⟩

/-- Claim C5 (amended): for every VersionManifest WITHOUT a `jsdelivr` field
in which `exports["."]` is a mapping with no `default` key and `main` is a
string, `resolve_entry_file` falls through to `main` and returns the `main`
value with its leading `.` and `/` characters stripped — not `None`. -/
theorem claim_C5 (pj ed dot_export : List (String × PyVal)) (m : String)
    (hj : pj.lookup "jsdelivr" = none)
    (he : pj.lookup "exports" = some (PyVal.vdict ed))
    (hdot : ed.lookup "." = some (PyVal.vdict dot_export))
    (hnd : dot_export.lookup "default" = none)
    (hm : pj.lookup "main" = some (PyVal.vstr m)) :
    resolve_entry_file (PyVal.vdict pj) = Except.ok (some (pyLstrip m)) := by
  simp [resolve_entry_file, mainFallback, hj, he, hdot, hnd, hm]

/-- Witness for C5 at a concrete manifest. -/
theorem claim_C5_witness :
    resolve_entry_file (PyVal.vdict
        [("exports", PyVal.vdict [(".", PyVal.vdict [("import", PyVal.vstr "./m.mjs")])]),
         ("main", PyVal.vstr "./index.js")]) =
      Except.ok (some "index.js") :=
  claim_C5 [("exports", PyVal.vdict [(".", PyVal.vdict [("import", PyVal.vstr "./m.mjs")])]),
            ("main", PyVal.vstr "./index.js")]
    [(".", PyVal.vdict [("import", PyVal.vstr "./m.mjs")])]
    [("import", PyVal.vstr "./m.mjs")] "./index.js" rfl rfl rfl rfl rfl

/-- Claim C6 (confirmed): a VersionManifest containing none of `jsdelivr`,
`exports` and `main` resolves to `None` (and in particular not to an empty
string — the result is the absence value, not `some ""`). -/
theorem claim_C6 (pj : List (String × PyVal))
    (hj : pj.lookup "jsdelivr" = none)
    (he : pj.lookup "exports" = none)
    (hm : pj.lookup "main" = none) :
    resolve_entry_file (PyVal.vdict pj) = Except.ok none := by
  simp [resolve_entry_file, mainFallback, hj, he, hm]

/-- Witness for C6 at a concrete manifest. -/
theorem claim_C6_witness :
    resolve_entry_file (PyVal.vdict [("name", PyVal.vstr "left-pad")]) = Except.ok none :=
  claim_C6 [("name", PyVal.vstr "left-pad")] rfl rfl rfl

/-- Claim C4 (confirmed): the five named example paths classify to the five
claimed shapes, and every input path is assigned exactly one of the five
shapes or `unmatched` (the classifier is a total function into a tagged
union with pairwise-distinct constructors, so at most one shape ever
matches). -/
theorem claim_C4 :
    classify "lodash".toList = RequestShape.packageEntry "lodash".toList ∧
    classify "lodash/".toList = RequestShape.packageDirLatest "lodash".toList ∧
    classify "lodash@4.17.21".toList =
      RequestShape.packageEntryVersioned "lodash".toList "4.17.21".toList ∧
    classify "lodash@4.17.21/".toList =
      RequestShape.packageDirVersioned "lodash".toList "4.17.21".toList ∧
    classify "lodash@4.17.21/dist/lodash.js".toList =
      RequestShape.packageFileVersioned "lodash".toList "4.17.21".toList "dist/lodash.js".toList ∧
    (∀ full_path : List Char,
      (∃ p, classify full_path = RequestShape.packageEntry p) ∨
      (∃ p, classify full_path = RequestShape.packageDirLatest p) ∨
      (∃ p v, classify full_path = RequestShape.packageEntryVersioned p v) ∨
      (∃ p v, classify full_path = RequestShape.packageDirVersioned p v) ∨
      (∃ p v f, classify full_path = RequestShape.packageFileVersioned p v f) ∨
      classify full_path = RequestShape.unmatched) := by
  refine ⟨by decide, by decide, by decide, by decide, by decide, ?_⟩
  intro full_path
  cases h : classify full_path with
  | packageEntry p => exact Or.inl ⟨p, rfl⟩
  | packageDirLatest p => exact Or.inr (Or.inl ⟨p, rfl⟩)
  | packageEntryVersioned p v => exact Or.inr (Or.inr (Or.inl ⟨p, v, rfl⟩))
  | packageDirVersioned p v => exact Or.inr (Or.inr (Or.inr (Or.inl ⟨p, v, rfl⟩)))
  | packageFileVersioned p v f =>
    exact Or.inr (Or.inr (Or.inr (Or.inr (Or.inl ⟨p, v, f, rfl⟩))))
  | unmatched => exact Or.inr (Or.inr (Or.inr (Or.inr (Or.inr rfl))))

/-- Claim C10 (confirmed): the terminal `unmatched` branch (line 142 of
`main.py`) is dead code — every path string is dispatched to one of the five
handlers: `@`-free paths hit case 1 or 2, and paths containing `@` hit case
3, 4 or 5, since splitting at the first `@` always yields a second component
and a trailing-slash path keeps its `@` after `rstrip("/")`. -/
theorem claim_C10 : ∀ full_path : List Char, isDispatched (classify full_path) = true := by
  intro l
  cases hat : containsChar '@' l with
  | false =>
    cases hsl : endsWithSlash l with
    | false => simp [classify, hat, hsl, isDispatched]
    | true => simp [classify, hat, hsl, isDispatched]
  | true =>
    cases hns : noSlashAfterAt l with
    | true => simp [classify, hat, hns, isDispatched]
    | false =>
      obtain ⟨rest, hrest⟩ := Option.isSome_iff_exists.mp (pySplit1_isSome hat)
      have hslash : containsChar '/' rest = true := by
        unfold noSlashAfterAt at hns
        rw [hrest] at hns
        simpa using hns
      cases hsl : endsWithSlash l with
      | true =>
        have hat2 : containsChar '@' (pyRstrip '/' l) = true :=
          containsChar_pyRstrip (by decide) hat
        obtain ⟨v, hv⟩ := Option.isSome_iff_exists.mp (pySplit1_isSome hat2)
        simp [classify, hat, hns, hsl, hv, isDispatched]
      | false =>
        simp [classify, classifyTail, hat, hns, hsl, hrest, hslash, isDispatched]

/-- Claim C3, as stated, is false at a concrete input: the split happens at
the FIRST `@` of the path, which for the scoped package path `@vue/shared`
is its leading character, so the package component becomes the empty string
(with `vue` parsed as version and `shared` as file path) instead of the full
scoped name `@vue/shared`. -/
theorem claim_C3_counterexample :
    classify "@vue/shared".toList =
      RequestShape.packageFileVersioned [] "vue".toList "shared".toList ∧
    packageComponent (classify "@vue/shared".toList) = some [] ∧
    ((packageComponent (classify "@vue/shared".toList) == some "@vue/shared".toList) = false) :=
  ⟨by decide, by decide, by decide⟩

/-- Claim C3 (amended): the `@` split is performed on the first occurrence
of `@`; consequently a scoped path `@scope/rest` (scope free of `/`, no
trailing slash) is NOT kept whole — it is classified `PackageFileVersioned`
with empty package component, version `scope` and file path `rest`. -/
theorem claim_C3 (scope rest : List Char)
    (hs : containsChar '/' scope = false)
    (he : endsWithSlash ('@' :: (scope ++ '/' :: rest)) = false) :
    classify ('@' :: (scope ++ '/' :: rest)) =
      RequestShape.packageFileVersioned [] scope rest := by
  have hat : containsChar '@' ('@' :: (scope ++ '/' :: rest)) = true := by
    simp [containsChar]
  have hsplit : pySplit1 '@' ('@' :: (scope ++ '/' :: rest)) =
      ([], some (scope ++ '/' :: rest)) := by
    simp [pySplit1]
  have hslash : containsChar '/' (scope ++ '/' :: rest) = true := by
    rw [containsChar_eq_true_iff]
    simp
  have hns : noSlashAfterAt ('@' :: (scope ++ '/' :: rest)) = false := by
    unfold noSlashAfterAt
    rw [hsplit]
    simp [hslash]
  have hvp : pySplit1 '/' (scope ++ '/' :: rest) = (scope, some rest) :=
    pySplit1_append scope rest hs
  simp [classify, classifyTail, hat, hns, he, hsplit, hslash, hvp]

/-- Witness for C3: the scoped path `@vue/shared` dispatches as a file
request with empty package name. -/
theorem claim_C3_witness :
    classify ('@' :: ("vue".toList ++ '/' :: "shared".toList)) =
      RequestShape.packageFileVersioned [] "vue".toList "shared".toList :=
  claim_C3 "vue".toList "shared".toList (by decide) (by decide)

/-- Claim C2, as stated, is false at a concrete input: a registry response
with status 503 whose body is valid JSON (here the empty object) is NOT
turned into a 500 — the code only tests `status_code == 404`, parses the
body, finds no `latest` tag and answers 404 `Version None Not Found`. -/
theorem claim_C2_counterexample :
    (get_package_entry (RegistryResult.resp 503 (Except.ok (PyVal.vdict [])))
        (fun _ => CdnResult.exn) "vue" none) =
      ({ status := 404, content := "404 Version None Not Found", headers := [] }, []) ∧
    (((get_package_entry (RegistryResult.resp 503 (Except.ok (PyVal.vdict [])))
        (fun _ => CdnResult.exn) "vue" none).1.status == 500) = false) :=
  ⟨rfl, by decide⟩

/-- Claim C2 (amended): a non-404 registry status yields a 500 response
carrying the underlying cause only when the body FAILS to parse as JSON
(`.json()` raising is the exception the handler catches); a non-404 error
status with a valid-JSON body is processed as if it were a manifest and does
not by itself produce a 500. The handler makes no CDN call in this case. -/
theorem claim_C2 (status : Nat) (e : String) (cdn : String → CdnResult)
    (package_name : String) (version : Option String)
    (hst : (status == 404) = false) :
    get_package_entry (RegistryResult.resp status (Except.error e)) cdn package_name version =
      ({ status := 500, content := "Error: " ++ e, headers := [] }, []) := by
  simp [get_package_entry, hst, err500]

/-- Witness for C2: a 503 whose body is not JSON gives a 500 naming the
parse failure. -/
theorem claim_C2_witness :
    get_package_entry
        (RegistryResult.resp 503 (Except.error "Expecting value: line 1 column 1 (char 0)"))
        (fun _ => CdnResult.exn) "vue" none =
      ({ status := 500,
         content := "Error: " ++ "Expecting value: line 1 column 1 (char 0)",
         headers := [] }, []) :=
  claim_C2 503 "Expecting value: line 1 column 1 (char 0)" (fun _ => CdnResult.exn)
    "vue" none (by decide)

/-- Claim C9 (confirmed): a registry 404 on the manifest fetch makes the
entry handler answer 404 `Package Not Found` immediately — the body is never
parsed and the list of CDN URLs requested is empty (no CDN call at all). -/
theorem claim_C9 (body : Except String PyVal) (cdn : String → CdnResult)
    (package_name : String) (version : Option String) :
    get_package_entry (RegistryResult.resp 404 body) cdn package_name version =
      ({ status := 404, content := "404 Package Not Found", headers := [] }, []) :=
  rfl

/-- Claim C8, as stated, is false at a concrete input: the entry request for
version `""` (path `lodash@`) pins a version absent from `versions`, yet the
handler does not answer 404 naming it — `if not version` treats the empty
string as unpinned, substitutes `dist-tags.latest` and serves the entry file
through a CDN call. -/
theorem claim_C8_counterexample :
    get_package_entry
        (RegistryResult.resp 200 (Except.ok (PyVal.vdict
          [("dist-tags", PyVal.vdict [("latest", PyVal.vstr "1.0.0")]),
           ("versions", PyVal.vdict [("1.0.0", PyVal.vdict [("main", PyVal.vstr "index.js")])])])))
        (fun _ => CdnResult.resp 200 "FILE" (some "text/javascript"))
        "lodash" (some "") =
      ({ status := 200, content := "FILE",
         headers := [("Content-Type", "text/javascript"),
                     ("Access-Control-Allow-Origin", "*")] },
       ["https://cdn.jsdelivr.net/npm/lodash@1.0.0/index.js"]) ∧
    ([("1.0.0", PyVal.vdict [("main", PyVal.vstr "index.js")])].lookup "" =
      (none : Option PyVal)) ∧
    (((200 : Nat) == 404) = false) :=
  ⟨rfl, rfl, by decide⟩

/-- Claim C8 (amended): for every entry request pinned to a NONEMPTY version
V that is not a key of the manifest's `versions` mapping (even if some
dist-tag references it), the handler answers 404 with a body explicitly
naming V, and no CDN fetch is attempted (the empty version string is instead
treated as unpinned by `if not version`). -/
theorem claim_C8 (status : Nat) (pd vs : List (String × PyVal)) (cdn : String → CdnResult)
    (package_name V : String)
    (hst : (status == 404) = false)
    (hV : (V == "") = false)
    (hvs : (pd.lookup "versions").getD (PyVal.vdict []) = PyVal.vdict vs)
    (habs : vs.lookup V = none) :
    get_package_entry (RegistryResult.resp status (Except.ok (PyVal.vdict pd)))
        cdn package_name (some V) =
      ({ status := 404, content := "404 Version " ++ V ++ " Not Found", headers := [] }, []) := by
  simp [get_package_entry, hst, pyTruthy, hV, hvs, habs]

/-- Witness for C8: `/vue@9.9.9` with `9.9.9` absent from `versions` gives a
404 naming `9.9.9` and an empty CDN trace. -/
theorem claim_C8_witness :
    get_package_entry
        (RegistryResult.resp 200 (Except.ok (PyVal.vdict
          [("dist-tags", PyVal.vdict [("latest", PyVal.vstr "9.9.9")]),
           ("versions", PyVal.vdict [("3.3.4", PyVal.vdict [("main", PyVal.vstr "index.js")])])])))
        (fun _ => CdnResult.exn) "vue" (some "9.9.9") =
      ({ status := 404, content := "404 Version " ++ "9.9.9" ++ " Not Found",
         headers := [] }, []) :=
  claim_C8 200
    [("dist-tags", PyVal.vdict [("latest", PyVal.vstr "9.9.9")]),
     ("versions", PyVal.vdict [("3.3.4", PyVal.vdict [("main", PyVal.vstr "index.js")])])]
    [("3.3.4", PyVal.vdict [("main", PyVal.vstr "index.js")])]
    (fun _ => CdnResult.exn) "vue" "9.9.9" (by decide) (by decide) rfl rfl

/-- Claim C7 (confirmed): `get_package_file` walks its two CDN candidates in
order — jsDelivr first, then unpkg. If the jsDelivr candidate returns 200
its body and content type (default `text/plain` when the header is absent)
come back with an open CORS header and only that URL was requested; if the
jsDelivr candidate fails in any way (non-200 status or raised transport
error) it is swallowed and a 200 from unpkg wins, both URLs having been
requested in order; if both candidates fail the result is a plain 404 after
requesting both. -/
theorem claim_C7 :
    (∀ (cdn : String → CdnResult) (p v f c : String) (ct : Option String),
      cdn (jsdelivr_url p v f) = CdnResult.resp 200 c ct →
      get_package_file cdn p v f =
        ({ status := 200, content := c,
           headers := [("Content-Type", ct.getD "text/plain"),
                       ("Access-Control-Allow-Origin", "*")] },
         [jsdelivr_url p v f])) ∧
    (∀ (cdn : String → CdnResult) (p v f c : String) (ct : Option String),
      is200 (cdn (jsdelivr_url p v f)) = false →
      cdn (unpkg_url p v f) = CdnResult.resp 200 c ct →
      get_package_file cdn p v f =
        ({ status := 200, content := c,
           headers := [("Content-Type", ct.getD "text/plain"),
                       ("Access-Control-Allow-Origin", "*")] },
         [jsdelivr_url p v f, unpkg_url p v f])) ∧
    (∀ (cdn : String → CdnResult) (p v f : String),
      is200 (cdn (jsdelivr_url p v f)) = false →
      is200 (cdn (unpkg_url p v f)) = false →
      get_package_file cdn p v f =
        ({ status := 404, content := "404 File Not Found", headers := [] },
         [jsdelivr_url p v f, unpkg_url p v f])) := by
  refine ⟨?_, ?_, ?_⟩
  · intro cdn p v f c ct h1
    simp [get_package_file, cdn_urls, fetchWalk, h1]
  · intro cdn p v f c ct h1 h2
    cases hr : cdn (jsdelivr_url p v f) with
    | exn => simp [get_package_file, cdn_urls, fetchWalk, hr, h2]
    | resp s c0 ct0 =>
      rw [hr] at h1
      simp only [is200] at h1
      simp [get_package_file, cdn_urls, fetchWalk, hr, h1, h2]
  · intro cdn p v f h1 h2
    cases hr : cdn (jsdelivr_url p v f) with
    | exn =>
      cases hr2 : cdn (unpkg_url p v f) with
      | exn => simp [get_package_file, cdn_urls, fetchWalk, hr, hr2]
      | resp s2 c2 ct2 =>
        rw [hr2] at h2
        simp only [is200] at h2
        simp [get_package_file, cdn_urls, fetchWalk, hr, hr2, h2]
    | resp s c0 ct0 =>
      rw [hr] at h1
      simp only [is200] at h1
      cases hr2 : cdn (unpkg_url p v f) with
      | exn => simp [get_package_file, cdn_urls, fetchWalk, hr, hr2, h1]
      | resp s2 c2 ct2 =>
        rw [hr2] at h2
        simp only [is200] at h2
        simp [get_package_file, cdn_urls, fetchWalk, hr, hr2, h1, h2]

/-- Witness for C7: the three fallback scenarios at concrete inputs — a
jsDelivr 200 with explicit content type, a jsDelivr transport error followed
by an unpkg 200 without a content-type header (defaulted to `text/plain`),
and a double failure collapsing to 404. -/
theorem claim_C7_witness :
    get_package_file (fun _ => CdnResult.resp 200 "AAA" (some "text/css")) "a" "1" "f" =
      ({ status := 200, content := "AAA",
         headers := [("Content-Type", "text/css"),
                     ("Access-Control-Allow-Origin", "*")] },
       [jsdelivr_url "a" "1" "f"]) ∧
    get_package_file
        (fun u => if u == unpkg_url "a" "1" "f" then CdnResult.resp 200 "BBB" none
                  else CdnResult.exn) "a" "1" "f" =
      ({ status := 200, content := "BBB",
         headers := [("Content-Type", "text/plain"),
                     ("Access-Control-Allow-Origin", "*")] },
       [jsdelivr_url "a" "1" "f", unpkg_url "a" "1" "f"]) ∧
    get_package_file (fun _ => CdnResult.exn) "a" "1" "f" =
      ({ status := 404, content := "404 File Not Found", headers := [] },
       [jsdelivr_url "a" "1" "f", unpkg_url "a" "1" "f"]) :=
  ⟨claim_C7.1 (fun _ => CdnResult.resp 200 "AAA" (some "text/css")) "a" "1" "f" "AAA"
      (some "text/css") rfl,
   claim_C7.2.1
      (fun u => if u == unpkg_url "a" "1" "f" then CdnResult.resp 200 "BBB" none
                else CdnResult.exn) "a" "1" "f" "BBB" none (by decide) (by decide),
   claim_C7.2.2 (fun _ => CdnResult.exn) "a" "1" "f" rfl rfl⟩
